import Mathlib

/-!
# Verification of the Device Control Core (Bot class)

A shallow embedding of the `Bot` class of machine-collaboration-utility:
its lifecycle state machine configuration, command processing, job-file
streaming, and reply validation.  JavaScript strings are embedded as
`List Char`; machine states and events as finite inductive types.

The `javascript-state-machine` library that interprets the declared edge
table is an external dependency whose source is not part of this
repository; its dispatch behaviour is modelled from the specification:
an event fires when the current state matches the edge's `from` (or the
edge is declared from the wildcard `*`), every successful transition
synchronously notifies observers of the new state (the configured
`onenterstate` callback emits one `stateChange` with the new state's
name), and an event invalid in the current state invokes the configured
error callback, which logs and throws, leaving the state unchanged.
-/

deriving instance DecidableEq for Except

/-- The ten lifecycle states declared in the Bot's state machine. -/
inductive BotState
  | unavailable
  | detecting
  | ready
  | connecting
  | connected
  | startingJob
  | processingJob
  | stopping
  | processingGcode
  | disconnecting
deriving DecidableEq, Repr, Fintype

/-- The twenty-two event names declared in the Bot's state machine. -/
inductive FsmEvent
  | detect
  | detectFail
  | detectDone
  | connect
  | connectFail
  | connectDone
  | start
  | startFail
  | startDone
  | stop
  | stopDone
  | stopFail
  | jobToGcode
  | jobGcodeFail
  | jobGcodeDone
  | connectedToGcode
  | connectedGcodeFail
  | connectedGcodeDone
  | disconnect
  | disconnectFail
  | disconnectDone
  | unplug
deriving DecidableEq, Repr, Fintype

/-- The `from` field of a declared edge: a concrete state, or the wildcard. -/
inductive FromSpec
  | star
  | only (s : BotState)
deriving DecidableEq, Repr

/-- One row of the `events:` table passed to `StateMachine.create`. -/
structure FsmEdge where
  name : FsmEvent
  fromState : FromSpec
  toState : BotState
deriving DecidableEq, Repr

/-- The edge table of the Bot's state machine, verbatim from the constructor. -/
def fsmEvents : List FsmEdge := [
  ⟨.detect,             .only .unavailable,     .detecting⟩,
  ⟨.detectFail,         .only .detecting,       .unavailable⟩,
  ⟨.detectDone,         .only .detecting,       .ready⟩,
  ⟨.connect,            .only .ready,           .connecting⟩,
  ⟨.connectFail,        .only .connecting,      .ready⟩,
  ⟨.connectDone,        .only .connecting,      .connected⟩,
  ⟨.start,              .only .connected,       .startingJob⟩,
  ⟨.startFail,          .only .startingJob,     .connected⟩,
  ⟨.startDone,          .only .startingJob,     .processingJob⟩,
  ⟨.stop,               .only .processingJob,   .stopping⟩,
  ⟨.stopDone,           .only .stopping,        .connected⟩,
  ⟨.stopFail,           .only .stopping,        .connected⟩,
  ⟨.jobToGcode,         .only .processingJob,   .processingGcode⟩,
  ⟨.jobGcodeFail,       .only .processingGcode, .processingJob⟩,
  ⟨.jobGcodeDone,       .only .processingGcode, .processingJob⟩,
  ⟨.connectedToGcode,   .only .connected,       .processingGcode⟩,
  ⟨.connectedGcodeFail, .only .processingGcode, .connected⟩,
  ⟨.connectedGcodeDone, .only .processingGcode, .connected⟩,
  ⟨.disconnect,         .only .connected,       .disconnecting⟩,
  ⟨.disconnectFail,     .only .disconnecting,   .connected⟩,
  ⟨.disconnectDone,     .only .disconnecting,   .ready⟩,
  ⟨.unplug,             .star,                  .unavailable⟩
]

/-- Whether a declared `from` covers a current state (wildcard matches all). -/
def fromMatches : FromSpec → BotState → Bool
  | .star, _ => true
  | .only s, s' => s == s'

/-- The JavaScript name of each state. -/
def stateName : BotState → String
  | .unavailable => "unavailable"
  | .detecting => "detecting"
  | .ready => "ready"
  | .connecting => "connecting"
  | .connected => "connected"
  | .startingJob => "startingJob"
  | .processingJob => "processingJob"
  | .stopping => "stopping"
  | .processingGcode => "processingGcode"
  | .disconnecting => "disconnecting"

/-- The JavaScript name of each event. -/
def eventName : FsmEvent → String
  | .detect => "detect"
  | .detectFail => "detectFail"
  | .detectDone => "detectDone"
  | .connect => "connect"
  | .connectFail => "connectFail"
  | .connectDone => "connectDone"
  | .start => "start"
  | .startFail => "startFail"
  | .startDone => "startDone"
  | .stop => "stop"
  | .stopDone => "stopDone"
  | .stopFail => "stopFail"
  | .jobToGcode => "jobToGcode"
  | .jobGcodeFail => "jobGcodeFail"
  | .jobGcodeDone => "jobGcodeDone"
  | .connectedToGcode => "connectedToGcode"
  | .connectedGcodeFail => "connectedGcodeFail"
  | .connectedGcodeDone => "connectedGcodeDone"
  | .disconnect => "disconnect"
  | .disconnectFail => "disconnectFail"
  | .disconnectDone => "disconnectDone"
  | .unplug => "unplug"

/-- The message built by the configured `error` callback:
`Invalid state change action "${event}". State at "${state}".`
The callback logs this message and then throws it. -/
def errorMessage (e : FsmEvent) (s : BotState) : String :=
  "Invalid state change action \"" ++ eventName e ++ "\". State at \"" ++
    stateName s ++ "\"."

/-- Outcome of a successful event: the new state and the payloads of the
`stateChange` notifications emitted by the `onenterstate` callback. -/
structure FireResult where
  state : BotState
  emitted : List String
deriving DecidableEq, Repr

/-- Firing an event on the machine.  A declared edge whose `from` covers the
current state transitions to its `to` state and emits one `stateChange`
notification carrying the new state's name; otherwise the error callback's
message is thrown. -/
def fireEvent (s : BotState) (e : FsmEvent) : Except String FireResult :=
  match fsmEvents.find? (fun edge => edge.name == e && fromMatches edge.fromState s) with
  | some edge => .ok ⟨edge.toState, [stateName edge.toState]⟩
  | none => .error (errorMessage e s)

/-- The machine state after attempting an event: the thrown error leaves
`fsm.current` untouched. -/
def applyEvent (s : BotState) (e : FsmEvent) : BotState :=
  match fireEvent s e with
  | .ok r => r.state
  | .error _ => s

/-- C1: For every declared (from, event) pair of the edge table, firing the
event in a state covered by the declared `from` succeeds, lands in the
declared `to` state, and emits exactly one `stateChange` notification
carrying the new state's name. -/
theorem fsm_declared_edges_transition_and_notify :
    ∀ edge ∈ fsmEvents, ∀ s : BotState, fromMatches edge.fromState s = true →
      fireEvent s edge.name = .ok ⟨edge.toState, [stateName edge.toState]⟩ := by
  decide

/-- Witness for C1 at the concrete edge `connect: ready → connecting`. -/
theorem fsm_declared_edges_transition_and_notify_witness :
    fireEvent .ready .connect = .ok ⟨.connecting, [stateName .connecting]⟩ :=
  fsm_declared_edges_transition_and_notify ⟨.connect, .only .ready, .connecting⟩
    (by decide) .ready (by decide)

/-- C2: For every (state, event) pair not covered by any declared edge
(`unplug` is declared from every state, so it is never such a pair), firing
the event throws the logged fatal-transition error message and leaves the
machine's current state unchanged. -/
theorem fsm_undeclared_pair_errors_state_unchanged :
    ∀ (s : BotState) (e : FsmEvent),
      (∀ edge ∈ fsmEvents, edge.name = e → fromMatches edge.fromState s = false) →
      fireEvent s e = .error (errorMessage e s) ∧ applyEvent s e = s := by
  decide

/-- Witness for C2 at the concrete pair (`ready`, `start`): `start` is only
declared from `connected`. -/
theorem fsm_undeclared_pair_errors_state_unchanged_witness :
    fireEvent .ready .start = .error (errorMessage .start .ready) ∧
      applyEvent .ready .start = .ready :=
  fsm_undeclared_pair_errors_state_unchanged .ready .start (by decide)

/-!
## Strings, reply validation, and the job-line handler

JavaScript strings are embedded as `List Char`.  `jsSplit` embeds
`String.prototype.split` with a single-character separator.
-/

/-- `s.split(sep)` for a one-character separator, JavaScript semantics:
the result always has one more element than there are separator
occurrences, so a trailing separator yields a trailing empty segment. -/
def jsSplit (sep : Char) : List Char → List (List Char)
  | [] => [[]]
  | c :: rest =>
    if c = sep then [] :: jsSplit sep rest
    else
      match jsSplit sep rest with
      | [] => [[c]]
      | s :: ss => (c :: s) :: ss

/-- `jsSplit` never returns the empty list. -/
theorem jsSplit_ne_nil (sep : Char) (s : List Char) : jsSplit sep s ≠ [] := by
  induction s with
  | nil => simp [jsSplit]
  | cons c rest ih =>
    simp only [jsSplit]
    split
    · simp
    · split
      · simp
      · simp

/-- The first segment of a split is the prefix before the first separator. -/
theorem jsSplit_headD (sep : Char) (s : List Char) :
    (jsSplit sep s).headD [] = s.takeWhile (fun c => !(c == sep)) := by
  induction s with
  | nil => simp [jsSplit]
  | cons c rest ih =>
    have hne := jsSplit_ne_nil sep rest
    by_cases h : c = sep
    · simp [jsSplit, h, List.takeWhile]
    · have hb : (c == sep) = false := beq_eq_false_iff_ne.mpr h
      cases hsp : jsSplit sep rest with
      | nil => exact absurd hsp hne
      | cons x xs =>
        rw [hsp] at ih
        simp only [List.headD_cons] at ih
        simp [jsSplit, h, hsp, List.takeWhile, hb, ih]

/-- `Bot.validateReply(command, reply)`: split the reply on `'\n'` and
compare the last segment (underscore's `_.last`) with the literal `ok`. -/
def validateReply (command reply : List Char) : Bool :=
  (jsSplit '\n' reply).getLast? == some ("ok".toList)

/-- The comment stripping of the line handler: `line.split(';')[0]`. -/
def stripComment (line : List Char) : List Char :=
  (jsSplit ';' line).headD []

/-- The per-job mutable state touched by the `'line'` handler: the line
cursor `currentLine` and the sequence of commands forwarded to
`queue.queueCommands`, in order. -/
structure JobState where
  currentLine : Nat
  queued : List (List Char)
deriving DecidableEq, Repr

/-- The `'line'` event handler of `Bot.startJob`: increment the cursor,
strip the comment, and forward the stripped line to the queue unless it
is empty. -/
def processLine (st : JobState) (line : List Char) : JobState :=
  let st1 : JobState := { st with currentLine := st.currentLine + 1 }
  let strippedLine := stripComment line
  if strippedLine.length ≤ 0 then st1
  else { st1 with queued := st1.queued ++ [strippedLine] }

/-- Running the line handler over a whole sequence of delivered lines,
starting from a fresh job (`currentLine = 0`, nothing queued). -/
def runJob (lines : List (List Char)) : JobState :=
  lines.foldl processLine ⟨0, []⟩

/-- Folding the line handler from any starting state: the cursor advances
by the number of lines, and the non-empty stripped lines are appended to
the queue in order. -/
theorem foldl_processLine (lines : List (List Char)) : ∀ st : JobState,
    lines.foldl processLine st =
      ⟨st.currentLine + lines.length,
       st.queued ++ ((lines.map stripComment).filter (fun s => decide (0 < s.length)))⟩ := by
  induction lines with
  | nil => intro st; simp
  | cons l ls ih =>
    intro st
    simp only [List.foldl_cons, List.map_cons, List.filter_cons, ih]
    by_cases h : (stripComment l).length ≤ 0
    · have h0 : ¬ (0 < (stripComment l).length) := by omega
      simp [processLine, h, h0]
      omega
    · have h0 : 0 < (stripComment l).length := by omega
      simp [processLine, h, h0, List.append_assoc]
      omega

/-- C3 (code bug): the reply `"T:200\r\nok\r\n"` is rejected by the code,
although the function's own documentation says it confirms a reply whose
last line is `ok` and that it parses out DOS newlines: `split('\n')`
leaves the `'\r'` attached to each segment and makes the trailing empty
segment the last one, so neither `"ok\r"` nor `""` equals `"ok"`.  Only a
reply whose final LF-delimited segment is bare `ok` with no trailing
newline at all, such as `"T:200\nok"`, is acknowledged. -/
theorem validateReply_rejects_dos_ok_reply :
    validateReply ("M105".toList) ("T:200\r\nok\r\n".toList) = false ∧
    validateReply ("M105".toList) ("T:200\r\nerror\r\n".toList) = false ∧
    validateReply ("M105".toList) ("T:200\nok".toList) = true := by
  decide

/-- C4: over a file of N delivered lines, the line handler leaves the line
cursor at N and forwards to the queue exactly the non-empty stripped
lines, in original file order. -/
theorem job_forwards_noncomment_lines_in_order (lines : List (List Char)) :
    (runJob lines).currentLine = lines.length ∧
    (runJob lines).queued =
      (lines.map stripComment).filter (fun s => decide (0 < s.length)) := by
  simp [runJob, foldl_processLine]

/-- C5 (counterexample): `"G1 X10 ; move"` does not strip to `"G1 X10"`;
`split(';')[0]` keeps the space before the semicolon, giving `"G1 X10 "`. -/
theorem strip_example_keeps_trailing_space :
    stripComment ("G1 X10 ; move".toList) = ("G1 X10 ".toList) ∧
    stripComment ("G1 X10 ; move".toList) ≠ ("G1 X10".toList) := by
  decide

/-- C5 (amended): comment stripping keeps exactly the prefix of the line
before the first `';'`, verbatim (no trimming): `"G1 X10 ; move"` strips
to `"G1 X10 "` with its trailing space, `";comment"` strips to the empty
string, and a comment-only line is never forwarded to the queue. -/
theorem strip_comment_discards_from_first_semicolon :
    (∀ line : List Char, stripComment line = line.takeWhile (fun c => !(c == ';'))) ∧
    stripComment ("G1 X10 ; move".toList) = ("G1 X10 ".toList) ∧
    stripComment (";comment".toList) = [] ∧
    (runJob [(";comment".toList)]).queued = [] := by
  refine ⟨?_, by decide, by decide, by decide⟩
  intro line
  simpa [stripComment] using jsSplit_headD ';' line

/-- C10: reply validation never looks at the command that was sent — for
any two commands and any reply, the acknowledgment decision coincides. -/
theorem validateReply_ignores_command (c1 c2 r : List Char) :
    validateReply c1 r = validateReply c2 r := rfl

/-!
## The Bot aggregate: fields, lifecycle operations, `processCommand`

`this.device` and `this.queue` are tracked as presence flags; the
operations return the updated Bot, the `stateChange` payloads emitted in
order, and whether an exception escaped the operation uncaught.
-/

/-- The Bot fields relevant to the lifecycle commands. -/
structure BotModel where
  virtual : Bool
  state : BotState
  device : Bool
  queueSet : Bool
deriving DecidableEq, Repr, Fintype

/-- Result of running an operation on the Bot: the updated Bot, the
`stateChange` payloads emitted during it, and whether an exception
escaped it uncaught. -/
structure OpResult where
  bot : BotModel
  emitted : List String
  threw : Bool
deriving DecidableEq, Repr

/-- Fire a state-machine event on the Bot: on success the state advances
and the notification is emitted; the thrown error leaves the Bot as is. -/
def fireB (b : BotModel) (e : FsmEvent) : OpResult :=
  match fireEvent b.state e with
  | .ok r => ⟨{ b with state := r.state }, r.emitted, false⟩
  | .error _ => ⟨b, [], true⟩

/-- `getBot()`: the JSON-friendly description, carrying the current state
name. -/
def getBot (b : BotModel) : String :=
  stateName b.state

/-- `Bot.detect(device)`: `fsm.detect()` runs outside the try block, so its
error escapes; inside the try the work either assigns the spoofed device
(virtual) or constructs the command queue, then `fsm.detectDone()`; the
catch block answers any failure in the try with `fsm.detectFail()`.
`workFails` abstracts a failure raised by the work itself. -/
def detectB (b : BotModel) (workFails : Bool) : OpResult :=
  let r1 := fireB b .detect
  if r1.threw then r1
  else if workFails then
    let rc := fireB r1.bot .detectFail
    ⟨rc.bot, r1.emitted ++ rc.emitted, rc.threw⟩
  else
    let b1 := if r1.bot.virtual then { r1.bot with device := true }
              else { r1.bot with queueSet := true }
    let r2 := fireB b1 .detectDone
    if r2.threw then
      let rc := fireB b1 .detectFail
      ⟨rc.bot, r1.emitted ++ rc.emitted, rc.threw⟩
    else ⟨r2.bot, r1.emitted ++ r2.emitted, false⟩

/-- `Bot.connect()`: the whole body sits in a try block — `fsm.connect()`,
the work (virtual delay, or queueing the open directive), then
`fsm.connectDone()`; the catch answers any failure with
`fsm.connectFail()`.  The non-virtual work fails when no queue was ever
constructed; `workFails` abstracts any other failure of the work. -/
def connectB (b : BotModel) (workFails : Bool) : OpResult :=
  let r1 := fireB b .connect
  if r1.threw then
    let rc := fireB b .connectFail
    ⟨rc.bot, rc.emitted, rc.threw⟩
  else if workFails || (!r1.bot.virtual && !r1.bot.queueSet) then
    let rc := fireB r1.bot .connectFail
    ⟨rc.bot, r1.emitted ++ rc.emitted, rc.threw⟩
  else
    let r2 := fireB r1.bot .connectDone
    if r2.threw then
      let rc := fireB r1.bot .connectFail
      ⟨rc.bot, r1.emitted ++ rc.emitted, rc.threw⟩
    else ⟨r2.bot, r1.emitted ++ r2.emitted, false⟩

/-- `Bot.disconnect()`: same try/catch shape as `connect`, with
`disconnect` / `disconnectDone` / `disconnectFail`; the work in both
branches is only a delay. -/
def disconnectB (b : BotModel) (workFails : Bool) : OpResult :=
  let r1 := fireB b .disconnect
  if r1.threw then
    let rc := fireB b .disconnectFail
    ⟨rc.bot, rc.emitted, rc.threw⟩
  else if workFails then
    let rc := fireB r1.bot .disconnectFail
    ⟨rc.bot, r1.emitted ++ rc.emitted, rc.threw⟩
  else
    let r2 := fireB r1.bot .disconnectDone
    if r2.threw then
      let rc := fireB r1.bot .disconnectFail
      ⟨rc.bot, r1.emitted ++ rc.emitted, rc.threw⟩
    else ⟨r2.bot, r1.emitted ++ r2.emitted, false⟩

/-- `Bot.unplug()`: clear `this.device`, then `fsm.unplug()` — declared
from every state, so it never throws. -/
def unplugB (b : BotModel) : OpResult :=
  fireB { b with device := false } .unplug

/-- `Bot.startJob(job)`: `fsm.start()`, the job-setup work (file lookup,
line reader, pre-scan), then `fsm.startDone()`.  There is no try/catch
anywhere in the body: a failure of the work escapes uncaught and no
`startFail` is ever driven. -/
def startJobB (b : BotModel) (workFails : Bool) : OpResult :=
  let r1 := fireB b .start
  if r1.threw then r1
  else if workFails then ⟨r1.bot, r1.emitted, true⟩
  else
    let r2 := fireB r1.bot .startDone
    ⟨r2.bot, r1.emitted ++ r2.emitted, r2.threw⟩

/-- The `'end'` handler of the line reader: `fsm.stop()`, closing the line
reader, then `fsm.stopDone()` (then job completion).  There is no
try/catch: a failure between `stop` and `stopDone` escapes uncaught and
no `stopFail` is ever driven. -/
def endOfFileB (b : BotModel) (workFails : Bool) : OpResult :=
  let r1 := fireB b .stop
  if r1.threw then r1
  else if workFails then ⟨r1.bot, r1.emitted, true⟩
  else
    let r2 := fireB r1.bot .stopDone
    ⟨r2.bot, r1.emitted ++ r2.emitted, r2.threw⟩

/-- The transitional states of the lifecycle. -/
def isTransitional : BotState → Bool
  | .detecting => true
  | .connecting => true
  | .startingJob => true
  | .stopping => true
  | .disconnecting => true
  | _ => false

/-- `Bot.processCommand(command)`: the four supported lifecycle commands,
with every other token rejected by a thrown "not supported" message.  The
value component is the thrown message or the returned `getBot()`
description. -/
def processCommand (b : BotModel) (command : String) :
    BotModel × List String × Except String String :=
  if command == "createVirtualBot" then
    if !b.virtual then
      let r := detectB { b with virtual := true } false
      (r.bot, r.emitted, .ok (getBot r.bot))
    else (b, [], .ok (getBot b))
  else if command == "destroyVirtualBot" then
    if b.virtual then
      let r := unplugB b
      let b2 := { r.bot with virtual := false }
      (b2, r.emitted, .ok (getBot b2))
    else (b, [], .ok (getBot b))
  else if command == "connect" then
    let r := connectB b false
    (r.bot, r.emitted, .ok (getBot r.bot))
  else if command == "disconnect" then
    let r := disconnectB b false
    (r.bot, r.emitted, .ok (getBot r.bot))
  else (b, [], .error ("Command \"" ++ command ++ "\" is not supported."))

/-- C6 (counterexample): a failure during `startJob`'s work, invoked on a
connected virtual bot, leaves the machine parked in the transitional
state `startingJob` — the uncaught exception escapes and no `startFail`
is ever driven (the `startFail` edge is declared but never invoked in
the code). -/
theorem startJob_failure_parks_in_transitional_state :
    (startJobB ⟨true, .connected, true, false⟩ true).bot.state = .startingJob ∧
    isTransitional (startJobB ⟨true, .connected, true, false⟩ true).bot.state = true ∧
    (startJobB ⟨true, .connected, true, false⟩ true).threw = true := by
  decide

/-- C6 (amended): only `detect`, `connect` and `disconnect` wrap their work
in a failure handler driving the matching `*Fail` event, so from their
legal pre-states they never end parked in a transitional state; `startJob`
and the end-of-file stop path have no failure handler, so a failure of
their work escapes uncaught and leaves the machine parked in
`startingJob` (resp. `stopping`). -/
theorem transitional_work_failure_amended :
    ∀ (b : BotModel) (wf : Bool),
      (b.state = .unavailable → isTransitional (detectB b wf).bot.state = false) ∧
      (b.state = .ready → isTransitional (connectB b wf).bot.state = false) ∧
      (b.state = .connected → isTransitional (disconnectB b wf).bot.state = false) ∧
      (b.state = .connected → wf = true →
        (startJobB b wf).bot.state = .startingJob ∧ (startJobB b wf).threw = true) ∧
      (b.state = .processingJob → wf = true →
        (endOfFileB b wf).bot.state = .stopping ∧ (endOfFileB b wf).threw = true) := by
  decide

/-- Witness for the amended C6, one concrete Bot per conjunct. -/
theorem transitional_work_failure_amended_witness :
    isTransitional (detectB ⟨true, .unavailable, false, false⟩ true).bot.state = false ∧
    isTransitional (connectB ⟨true, .ready, false, false⟩ true).bot.state = false ∧
    isTransitional (disconnectB ⟨true, .connected, false, false⟩ true).bot.state = false ∧
    ((startJobB ⟨true, .connected, false, false⟩ true).bot.state = .startingJob ∧
      (startJobB ⟨true, .connected, false, false⟩ true).threw = true) ∧
    ((endOfFileB ⟨true, .processingJob, false, false⟩ true).bot.state = .stopping ∧
      (endOfFileB ⟨true, .processingJob, false, false⟩ true).threw = true) :=
  ⟨(transitional_work_failure_amended ⟨true, .unavailable, false, false⟩ true).1 rfl,
   (transitional_work_failure_amended ⟨true, .ready, false, false⟩ true).2.1 rfl,
   (transitional_work_failure_amended ⟨true, .connected, false, false⟩ true).2.2.1 rfl,
   (transitional_work_failure_amended ⟨true, .connected, false, false⟩ true).2.2.2.1 rfl rfl,
   (transitional_work_failure_amended ⟨true, .processingJob, false, false⟩ true).2.2.2.2 rfl rfl⟩

/-- C7: every lifecycle command other than the four supported ones is
rejected with the descriptive thrown message, with the Bot (state machine
state and all fields) unchanged and no notification emitted. -/
theorem unsupported_command_rejected_no_mutation (b : BotModel) (command : String)
    (h1 : command ≠ "createVirtualBot") (h2 : command ≠ "destroyVirtualBot")
    (h3 : command ≠ "connect") (h4 : command ≠ "disconnect") :
    processCommand b command =
      (b, [], .error ("Command \"" ++ command ++ "\" is not supported.")) := by
  simp [processCommand, h1, h2, h3, h4]

/-- Witness for C7 at the concrete unsupported command `pause`. -/
theorem unsupported_command_rejected_no_mutation_witness :
    processCommand ⟨false, .unavailable, false, false⟩ "pause" =
      (⟨false, .unavailable, false, false⟩, [],
        .error ("Command \"" ++ "pause" ++ "\" is not supported.")) :=
  unsupported_command_rejected_no_mutation ⟨false, .unavailable, false, false⟩ "pause"
    (by decide) (by decide) (by decide) (by decide)

/-- C9: `createVirtualBot` on an already-virtual Bot and
`destroyVirtualBot` on a non-virtual Bot drive no transition, change no
field, emit nothing, and return the current bot description. -/
theorem virtual_lifecycle_idempotent :
    ∀ b : BotModel,
      (b.virtual = true →
        processCommand b "createVirtualBot" = (b, [], .ok (getBot b))) ∧
      (b.virtual = false →
        processCommand b "destroyVirtualBot" = (b, [], .ok (getBot b))) := by
  decide

/-- Witness for C9 at two concrete Bots. -/
theorem virtual_lifecycle_idempotent_witness :
    processCommand ⟨true, .ready, true, false⟩ "createVirtualBot" =
      (⟨true, .ready, true, false⟩, [], .ok (getBot ⟨true, .ready, true, false⟩)) ∧
    processCommand ⟨false, .unavailable, false, false⟩ "destroyVirtualBot" =
      (⟨false, .unavailable, false, false⟩, [],
        .ok (getBot ⟨false, .unavailable, false, false⟩)) :=
  ⟨(virtual_lifecycle_idempotent ⟨true, .ready, true, false⟩).1 rfl,
   (virtual_lifecycle_idempotent ⟨false, .unavailable, false, false⟩).2 rfl⟩

/-!
## The pre-scan line count and the line source
-/

/-- The line terminators of the pre-scan's regular expression: LF, CR,
NEL (U+0085), LINE SEPARATOR (U+2028) and PARAGRAPH SEPARATOR (U+2029). -/
def isLineTerm (c : Char) : Bool :=
  c == '\n' || c == '\r' || c == '\u0085' || c == '\u2028' || c == '\u2029'

/-- Splitting the raw file content on the pre-scan's regular expression:
`\r\n` is consumed as one terminator, otherwise any single terminator
character; the result has one more segment than terminator matches. -/
def scanSplit : List Char → List (List Char)
  | [] => [[]]
  | '\r' :: '\n' :: rest => [] :: scanSplit rest
  | c :: rest =>
    if isLineTerm c then [] :: scanSplit rest
    else
      match scanSplit rest with
      | [] => [[c]]
      | s :: ss => (c :: s) :: ss

/-- `scanSplit` never returns the empty list. -/
theorem scanSplit_ne_nil (s : List Char) : scanSplit s ≠ [] := by
  unfold scanSplit
  repeat' split
  all_goals simp

/-- The `numLines` pre-scan of `Bot.startJob` over the whole file content:
the number of segments of the split, minus one — i.e. the number of line
terminators in the file. -/
def numLinesScan (content : List Char) : Nat :=
  (scanSplit content).length - 1

/-- Modelled from the spec: the `line-by-line` reader that delivers the
job file's lines (`self.lr`) is an external dependency whose source is
not part of this repository; per the specification the line source
delivers the file's newline-delimited lines, so it emits every segment
between terminators and does not emit a final empty segment produced by
a terminator ending the file. -/
def readerLines (content : List Char) : List (List Char) :=
  let parts := scanSplit content
  if parts.getLast? = some [] then parts.dropLast else parts

/-- C8 (counterexample): for the two-line file `"G1\nG2"`, which does not
end with a newline, the reader delivers two lines, so the cursor reaches
2, but the pre-scan counts only the single terminator, so `numLines` is
1 — the cursor exceeds the pre-scan's total line count. -/
theorem currentLine_exceeds_prescan_count :
    (runJob (readerLines ("G1\nG2".toList))).currentLine = 2 ∧
    numLinesScan ("G1\nG2".toList) = 1 ∧
    ¬ (runJob (readerLines ("G1\nG2".toList))).currentLine ≤
        numLinesScan ("G1\nG2".toList) := by
  decide

/-- C8 (amended): at every point of processing (any prefix of the
delivered lines), the cursor is bounded by the pre-scan count plus one,
and when the file ends with a line terminator (the split's last segment
is empty) the cursor never exceeds the pre-scan count itself. -/
theorem currentLine_bounded_by_prescan :
    ∀ (content : List Char) (k : Nat),
      (runJob ((readerLines content).take k)).currentLine ≤ numLinesScan content + 1 ∧
      ((scanSplit content).getLast? = some [] →
        (runJob ((readerLines content).take k)).currentLine ≤ numLinesScan content) := by
  intro content k
  have hne : scanSplit content ≠ [] := scanSplit_ne_nil content
  have hpos : 0 < (scanSplit content).length := List.length_pos.mpr hne
  have hcur : (runJob ((readerLines content).take k)).currentLine
      = ((readerLines content).take k).length := by
    have h1 := foldl_processLine ((readerLines content).take k) ⟨0, []⟩
    simp [runJob, h1]
  have htake : ((readerLines content).take k).length ≤ (readerLines content).length := by
    rw [List.length_take]
    exact Nat.min_le_right _ _
  have hnum : numLinesScan content = (scanSplit content).length - 1 := rfl
  by_cases hlast : (scanSplit content).getLast? = some []
  · have hlen : (readerLines content).length = (scanSplit content).length - 1 := by
      simp [readerLines, hlast, List.length_dropLast]
    exact ⟨by omega, fun _ => by omega⟩
  · have hlen : (readerLines content).length = (scanSplit content).length := by
      simp [readerLines, hlast]
    exact ⟨by omega, fun h => absurd h hlast⟩

/-- Witness for the amended C8 at the terminator-ended file `"G1\n"`. -/
theorem currentLine_bounded_by_prescan_witness :
    (runJob ((readerLines ("G1\n".toList)).take 5)).currentLine ≤
        numLinesScan ("G1\n".toList) + 1 ∧
    (runJob ((readerLines ("G1\n".toList)).take 5)).currentLine ≤
        numLinesScan ("G1\n".toList) :=
  ⟨(currentLine_bounded_by_prescan ("G1\n".toList) 5).1,
   (currentLine_bounded_by_prescan ("G1\n".toList) 5).2 (by decide)⟩
